import Mathlib

/-!
Verification of the Rune interpreter (TypeScript sources) against its
natural-language specification.

The definitions below are a shallow embedding of the interpreter:

* `Expr` mirrors the parser's expression type (`parser.ts`, `Expr`).
* `Value` mirrors the evaluator's runtime values (`evaluator.ts`,
  `ListValue` … `SpliceValue`; `type Value`).
* JavaScript's mutable environment objects are modelled by a `Store` of
  environment records addressed by index; object-reference mutation
  (`env.bindings[k] = v`) becomes an explicit store update.  JavaScript
  exceptions become the `Res.err` outcome; every function also returns the
  store and macro table as they stand when the exception propagates, since
  JavaScript does not roll back mutations.
* The evaluator's methods (`eval`, `apply`, `specialForm`, `expandMacro`,
  `substitute`, `evalQuote`, `evalQuasiquote`, `lookupInParent`) are
  translated one-to-one, with a fuel parameter supplying the termination
  argument that the host call stack supplies in the source.
* Numbers are modelled as `Rat`.  Every program considered here computes
  only with small integers, on which IEEE-754 doubles are exact.
-/

namespace Rune

/-- Literal payloads (`parser.ts`: `{ type: 'Literal'; value: string | number
| boolean | null }`). -/
inductive Lit where
  | num (q : Rat)
  | str (s : String)
  | bool (b : Bool)
  | nil
deriving Repr

/-- Parsed expressions (`parser.ts`, `type Expr`), plus the `Splice` variant
the evaluator handles (`ast/types.ts`, `Splice`). -/
inductive Expr where
  | lit (l : Lit)
  | sym (s : String)
  | list (es : List Expr)
  | vector (es : List Expr)
  | map (pairs : List (Expr × Expr))
  | quote (e : Expr)
  | quasiquote (e : Expr)
  | unquote (e : Expr)
  | splice (e : Expr)
deriving Repr

/-- Runtime values (`evaluator.ts`, `type Value`).  A function value's
captured environment is an index into the store; `none` models the
`undefined` that `primitiveFn` stores because `this.env` is still
unassigned while `createGlobalEnv` runs. -/
inductive Value where
  | num (q : Rat)
  | str (s : String)
  | bool (b : Bool)
  | nil
  | listV (vs : List Value)
  | vecV (vs : List Value)
  | mapV (entries : List (String × Value))
  | fnV (params : List String) (body : List Expr) (envId : Option Nat)
  | spliceV (vs : List Value)
deriving Repr

/-- Association-list lookup, modelling a read of a JavaScript object
property (or `Map.get`). -/
def lookupA {α : Type} : List (String × α) → String → Option α
  | [], _ => none
  | (k, v) :: rest, key => if k = key then some v else lookupA rest key

/-- Association-list update, modelling a JavaScript property assignment (or
`Map.set`): an existing key keeps its position, a new key is appended. -/
def setA {α : Type} : List (String × α) → String → α → List (String × α)
  | [], key, v => [(key, v)]
  | (k, w) :: rest, key, v =>
      if k = key then (k, v) :: rest else (k, w) :: setA rest key v

/-- An environment object (`interface Env`): parent link and bindings. -/
structure EnvRec where
  parent : Option Nat
  bindings : List (String × Value)
deriving Repr

/-- The heap of environment objects.  Index 0 is the evaluator's root
environment; `new Env` appends a record. -/
structure Store where
  envs : List EnvRec
deriving Repr

/-- The evaluator's macro table (`private macros: Map<string, { params; body }>`). -/
abbrev Mtab := List (String × (List String × List Expr))

/-- Outcome of a computation: a value, a thrown JavaScript error, or fuel
exhaustion (the embedding's stand-in for non-termination). -/
inductive Res (α : Type) where
  | ok (a : α)
  | err (msg : String)
  | out
deriving Repr

/-- The message of the `TypeError` JavaScript raises on a property access or
call on `undefined` (e.g. `args[0].value` with too few arguments). -/
def undefinedAccess : String := "TypeError: Cannot read properties of undefined"

/-- `String(n)` for the numbers this development manipulates: JavaScript
prints integral doubles without a decimal point.  Non-integral numbers
(which JavaScript prints in decimal notation) do not occur in any program
considered here; they are rendered as a fraction. -/
def jsNumToString (q : Rat) : String :=
  if q.den = 1 then toString q.num else toString q.num ++ "/" ++ toString q.den

mutual

/-- `Evaluator.formatValue` (evaluator.ts lines 398-413).  The final
`String(v)` fallback is reached only by a splice marker, a plain object,
which JavaScript prints as `[object Object]`. -/
def formatValue : Value → String
  | .nil => "nil"
  | .num q => jsNumToString q
  | .str s => s
  | .bool true => "true"
  | .bool false => "false"
  | .listV vs => "(" ++ String.intercalate " " (formatValues vs) ++ ")"
  | .vecV vs => "[" ++ String.intercalate " " (formatValues vs) ++ "]"
  | .mapV es => "\x7b" ++ String.intercalate " " (formatPairs es) ++ "\x7d"
  | .fnV _ _ _ => "#<fn>"
  | .spliceV _ => "[object Object]"

def formatValues : List Value → List String
  | [] => []
  | v :: vs => formatValue v :: formatValues vs

def formatPairs : List (String × Value) → List String
  | [] => []
  | (k, v) :: es => (k ++ " " ++ formatValue v) :: formatPairs es

end

/-! ## The primitive library (`createGlobalEnv`, evaluator.ts lines 331-392)

Each binding's callback is translated below exactly as it influences the
claims under study; `primitiveFn` (lines 394-396) then *discards* the
callback and returns an inert closure, so none of the callbacks is ever
invoked by `eval`. -/

/-- A primitive callback: the already-evaluated arguments to a value, plus
the lines it writes through `console.log` (only `print` writes any).
JavaScript errors inside a callback are `Except.error`. -/
abbrev PrimCb := List Value → Except String (Value × List String)

/-- ECMAScript `Array.prototype.reduce`: with an initial value it folds from
that value; without one it starts from the first element — so a one-element
array is returned unchanged *without invoking the reducer*, and an empty
array throws. -/
def jsReduce (f : Value → Value → Value) : Option Value → List Value → Except String Value
  | some acc, [] => .ok acc
  | some acc, v :: vs => jsReduce f (some (f acc v)) vs
  | none, [] => .error "TypeError: Reduce of empty array with no initial value"
  | none, v :: vs => jsReduce f (some v) vs

/-- JavaScript `a + b` as the `+` callback uses it.  Non-number operands
trigger JavaScript coercion (string concatenation or NaN); no program
considered here adds non-numbers, so those cases are collapsed to `nil`. -/
def jsAdd : Value → Value → Value
  | .num a, .num b => .num (a + b)
  | _, _ => .nil

/-- JavaScript `a - b`; non-number coercion (NaN) collapsed as in `jsAdd`. -/
def jsSub : Value → Value → Value
  | .num a, .num b => .num (a - b)
  | _, _ => .nil

/-- JavaScript `a * b`; non-number coercion collapsed as in `jsAdd`. -/
def jsMul : Value → Value → Value
  | .num a, .num b => .num (a * b)
  | _, _ => .nil

/-- JavaScript `a / b`; division by zero (IEEE infinity) and non-number
coercion do not occur in any program considered here. -/
def jsDiv : Value → Value → Value
  | .num a, .num b => .num (a / b)
  | _, _ => .nil

/-- JavaScript `a % b` on the integral doubles used here (truncated
remainder, sign of the dividend); other operands collapsed to `nil`. -/
def jsMod : Value → Value → Value
  | .num a, .num b =>
      if a.den = 1 ∧ b.den = 1 ∧ b ≠ 0 then .num (Int.tmod a.num b.num) else .nil
  | _, _ => .nil

/-- JavaScript `===` as the `=` callback uses it: content comparison on
scalars.  On objects `===` is reference identity; the pure values of this
embedding carry no identity, and the two collection operands a program
builds separately are distinct references, so the object case is `false`
here.  (The callback is dead code: `primitiveFn` discards it.) -/
def jsStrictEq : Option Value → Option Value → Bool
  | none, none => true
  | some (Value.num a), some (Value.num b) => a = b
  | some (Value.str a), some (Value.str b) => a = b
  | some (Value.bool a), some (Value.bool b) => a = b
  | some Value.nil, some Value.nil => true
  | _, _ => false

/-- JavaScript `a < b` on numbers; comparisons of non-numbers do not occur
in any program considered here. -/
def jsLt : Option Value → Option Value → Bool
  | some (Value.num a), some (Value.num b) => a < b
  | _, _ => false

def isListValue : Value → Bool
  | .listV _ => true
  | _ => false

def isVectorValue : Value → Bool
  | .vecV _ => true
  | _ => false

def isMapValue : Value → Bool
  | .mapV _ => true
  | _ => false

def isFnValue : Value → Bool
  | .fnV _ _ _ => true
  | _ => false

def plusCb : PrimCb := fun args => (jsReduce jsAdd (some (Value.num 0)) args).map (·, [])

def minusCb : PrimCb := fun args => (jsReduce jsSub none args).map (·, [])

def timesCb : PrimCb := fun args => (jsReduce jsMul (some (Value.num 1)) args).map (·, [])

def divCb : PrimCb := fun args => (jsReduce jsDiv none args).map (·, [])

def eqCb : PrimCb := fun args => .ok (.bool (jsStrictEq args[0]? args[1]?), [])

def ltCb : PrimCb := fun args => .ok (.bool (jsLt args[0]? args[1]?), [])

def gtCb : PrimCb := fun args => .ok (.bool (jsLt args[1]? args[0]?), [])

/-- `<=` via `¬ >`; exact on the number operands used here. -/
def leCb : PrimCb := fun args => .ok (.bool (!jsLt args[1]? args[0]?), [])

def geCb : PrimCb := fun args => .ok (.bool (!jsLt args[0]? args[1]?), [])

def modCb : PrimCb := fun args =>
  match args[0]?, args[1]? with
  | some a, some b => .ok (jsMod a b, [])
  | _, _ => .ok (.nil, [])

def consCb : PrimCb := fun args =>
  match args[0]?, args[1]? with
  | some a, some (Value.listV vs) => .ok (.listV (a :: vs), [])
  | _, _ => .error "TypeError: list.values is not iterable"

/-- `car`: `list.values[0]`; on an empty list JavaScript yields `undefined`
(rendered here as `nil`; dead code, see `primitiveFn`). -/
def carCb : PrimCb := fun args =>
  match args[0]? with
  | some (Value.listV (v :: _)) => .ok (v, [])
  | some (Value.listV []) => .ok (.nil, [])
  | _ => .error undefinedAccess

def cdrCb : PrimCb := fun args =>
  match args[0]? with
  | some (Value.listV vs) => .ok (.listV (vs.drop 1), [])
  | _ => .error undefinedAccess

def listCb : PrimCb := fun args => .ok (.listV args, [])

/-- `vec`: `(args[0] as any).values || args[0]`.  For a non-collection the
source stores the raw value in the `values` field; that malformed object is
collapsed to a one-element vector (dead code, see `primitiveFn`). -/
def vecCb : PrimCb := fun args =>
  match args[0]? with
  | some (Value.listV vs) => .ok (.vecV vs, [])
  | some (Value.vecV vs) => .ok (.vecV vs, [])
  | some v => .ok (.vecV [v], [])
  | none => .ok (.vecV [], [])

def vecPredCb : PrimCb := fun args =>
  .ok (.bool (match args[0]? with | some v => isVectorValue v | none => false), [])

def listPredCb : PrimCb := fun args =>
  .ok (.bool (match args[0]? with | some v => isListValue v | none => false), [])

def mapPredCb : PrimCb := fun args =>
  .ok (.bool (match args[0]? with | some v => isMapValue v | none => false), [])

def fnPredCb : PrimCb := fun args =>
  .ok (.bool (match args[0]? with | some v => isFnValue v | none => false), [])

def nilPredCb : PrimCb := fun args =>
  .ok (.bool (match args[0]? with | some Value.nil => true | _ => false), [])

def truePredCb : PrimCb := fun args =>
  .ok (.bool (match args[0]? with | some (Value.bool true) => true | _ => false), [])

def falsePredCb : PrimCb := fun args =>
  .ok (.bool (match args[0]? with | some (Value.bool false) => true | _ => false), [])

/-- `print` (lines 373-377): `console.log` of the space-joined formatted
arguments, returning `null`. -/
def printCb : PrimCb := fun args =>
  .ok (.nil, [String.intercalate " " (args.map formatValue)])

def strCb : PrimCb := fun args =>
  .ok (.str (String.join (args.map formatValue)), [])

/-- The string `type-of`'s callback returns (lines 379-389), including its
`'unknown'` fallback — reached by a splice marker, and by a missing
argument (`undefined` fails every check). -/
def typeOfStr : Option Value → String
  | some Value.nil => "nil"
  | some (Value.num _) => "number"
  | some (Value.str _) => "string"
  | some (Value.bool _) => "boolean"
  | some (Value.listV _) => "list"
  | some (Value.vecV _) => "vector"
  | some (Value.mapV _) => "map"
  | some (Value.fnV _ _ _) => "fn"
  | some (Value.spliceV _) => "unknown"
  | none => "unknown"

def typeOfCb : PrimCb := fun args => .ok (.str (typeOfStr args[0]?), [])

/-- `Evaluator.primitiveFn` (lines 394-396): the callback argument is
**ignored**; the result is a closure with empty parameter list and empty
body whose `env` field is `this.env` — still `undefined` (`none`) while
`createGlobalEnv` runs. -/
def primitiveFn (_cb : PrimCb) : Value := .fnV [] [] none

/-- The root-environment bindings installed by `createGlobalEnv`
(lines 331-392), in source order. -/
def globalBindings : List (String × Value) :=
  [ ("+", primitiveFn plusCb)
  , ("-", primitiveFn minusCb)
  , ("*", primitiveFn timesCb)
  , ("/", primitiveFn divCb)
  , ("=", primitiveFn eqCb)
  , ("<", primitiveFn ltCb)
  , (">", primitiveFn gtCb)
  , ("<=", primitiveFn leCb)
  , (">=", primitiveFn geCb)
  , ("%", primitiveFn modCb)
  , ("cons", primitiveFn consCb)
  , ("car", primitiveFn carCb)
  , ("cdr", primitiveFn cdrCb)
  , ("list", primitiveFn listCb)
  , ("vec", primitiveFn vecCb)
  , ("vec?", primitiveFn vecPredCb)
  , ("list?", primitiveFn listPredCb)
  , ("map?", primitiveFn mapPredCb)
  , ("fn?", primitiveFn fnPredCb)
  , ("nil?", primitiveFn nilPredCb)
  , ("true?", primitiveFn truePredCb)
  , ("false?", primitiveFn falsePredCb)
  , ("print", primitiveFn printCb)
  , ("str", primitiveFn strCb)
  , ("type-of", primitiveFn typeOfCb) ]

/-- The store of a freshly constructed `Evaluator` (constructor, lines
322-329): one environment, the root, with the primitive bindings; the
macro table starts empty. -/
def initStore : Store := ⟨[⟨none, globalBindings⟩]⟩

/-! ## Helpers for the evaluator's untyped property accesses -/

/-- `(expr as any).value` used as a JavaScript object key (`def`, `defn`,
`defmacro`, `let` bindings): symbols and literals have a `value` field,
which the property write coerces to a string; any other expression yields
`undefined`, coerced to the key `"undefined"`. -/
def jsKey : Expr → String
  | .sym s => s
  | .lit (.str s) => s
  | .lit (.num q) => jsNumToString q
  | .lit (.bool true) => "true"
  | .lit (.bool false) => "false"
  | .lit .nil => "null"
  | _ => "undefined"

/-- `((e as any)?.value || '').split(' ').filter(Boolean)` — the parameter
lists of `fn`, `defn` and `defmacro`.  A vector `[x y]` has no `value`
field, so it contributes **no** parameters; only a symbol (or string
literal) does.  A truthy non-string literal makes JavaScript call `.split`
on a non-string and throw. -/
def paramsOfExpr : Option Expr → Except String (List String)
  | none => .ok []
  | some (.sym s) => .ok ((s.splitOn " ").filter (· ≠ ""))
  | some (.lit (.str s)) => .ok ((s.splitOn " ").filter (· ≠ ""))
  | some (.lit (.num q)) =>
      if q = 0 then .ok [] else .error "TypeError: value.split is not a function"
  | some (.lit (.bool b)) =>
      if b then .error "TypeError: value.split is not a function" else .ok []
  | some (.lit .nil) => .ok []
  | some _ => .ok []

/-- `(args[0] as any).elements` for `let`: lists and vectors have the field. -/
def elemsOf : Expr → Option (List Expr)
  | .list es => some es
  | .vector es => some es
  | _ => none

/-- A `Literal` expression's payload as a runtime value (eval, `case
'Literal'`). -/
def litVal : Lit → Value
  | .num q => .num q
  | .str s => .str s
  | .bool b => .bool b
  | .nil => .nil

/-! ## The macro expander (`expandMacro` / `substitute`, lines 619-668)

These are pure expression-to-expression functions: the expander never
evaluates, it only renames symbols. -/

mutual

/-- `Evaluator.substitute` (lines 640-668).  Only two expression variants
are inspected: a `Symbol` found in the renaming map is replaced (when the
mapped name is truthy), and a `List` is mapped recursively — after a
special check for a literal `(unquote x)` list head, a shape the parser
never produces (it builds `Unquote` nodes).  **Every other variant —
`Literal`, `Vector`, `Map`, `Quote`, `Quasiquote`, `Unquote`, `Splice` —
is returned unchanged**, so nothing under a quasiquote template is ever
renamed. -/
def substitute (e : Expr) (env : List (String × String)) : Except String Expr :=
  match e with
  | .sym s =>
      match lookupA env s with
      | some v => if v = "" then .ok (.sym s) else .ok (.sym v)
      | none => .ok (.sym s)
  | .list es =>
      match es with
      | .sym "unquote" :: _ =>
          match es[1]? with
          | none => .error undefinedAccess
          | some e1 =>
              match lookupA env (jsKey e1) with
              | some v =>
                  if v = "" then (substituteList es env).map .list
                  else .ok (.sym v)
              | none => (substituteList es env).map .list
      | _ => (substituteList es env).map .list
  | e => .ok e

def substituteList (es : List Expr) (env : List (String × String)) :
    Except String (List Expr) :=
  match es with
  | [] => .ok []
  | e :: rest => do
      let e2 ← substitute e env
      let rest2 ← substituteList rest env
      .ok (e2 :: rest2)

end

/-- The `newEnv` map of `expandMacro` (lines 620-625): each parameter is
mapped to the text of the corresponding call-site argument (`arg?.value ||
''`).  The source computes this map and **never reads it** — the
call-site arguments are never substituted into the macro body. -/
def argTextMap (params : List String) (args : List Expr) : List (String × String) :=
  go [] params args
where
  go (acc : List (String × String)) : List String → List Expr → List (String × String)
    | [], _ => acc
    | p :: ps, [] => go (setA acc p "") ps []
    | p :: ps, a :: rest =>
        go (setA acc p (match a with
          | .sym s => s
          | .lit (.str s) => s
          | .lit (.num q) => if q = 0 then "" else jsNumToString q
          | .lit (.bool b) => if b then "true" else ""
          | _ => "")) ps rest

/-- The `hygienicEnv` map of `expandMacro` (lines 627-634): each macro
**parameter** is mapped to `<param>__gen<counter>`, the counter running
from 1 over the parameter list. -/
def hygienicEnv (params : List String) : List (String × String) :=
  go [] 0 params
where
  go (acc : List (String × String)) (counter : Nat) : List String → List (String × String)
    | [] => acc
    | p :: ps => go (setA acc p (p ++ "__gen" ++ toString (counter + 1))) (counter + 1) ps

/-- `Evaluator.expandMacro` (lines 619-638): builds the (unused) argument
map and the parameter-renaming map, then substitutes through the **first**
body expression only.  An empty body makes `substitute(undefined, …)`
dereference `undefined`. -/
def expandMacro (_name : String) (params : List String) (body : List Expr)
    (args : List Expr) : Except String Expr :=
  let _newEnv := argTextMap params args
  let hyg := hygienicEnv params
  match body[0]? with
  | none => .error undefinedAccess
  | some b0 => substitute b0 hyg

/-! ## The evaluator (`Evaluator.eval` and friends, lines 415-722)

State threading: `Store` is the heap of environment objects; `Mtab` is the
macro table of the evaluator instance currently executing (`this.macros`).
`apply` and `let` construct a *new* `Evaluator` for the body, whose macro
table starts empty and is discarded afterwards, exactly as in the source
(`new Evaluator(newEnv)`). -/

set_option maxHeartbeats 2000000

/-- `this.env.bindings[k] = v` on the environment with index `i`. -/
def storeSetB (st : Store) (i : Nat) (k : String) (v : Value) : Store :=
  match st.envs[i]? with
  | some e => ⟨st.envs.set i ⟨e.parent, setA e.bindings k v⟩⟩
  | none => st

/-- The `if` form's condition test (line 592): `condition !== false &&
condition !== null`. -/
def jsTruthyIf : Value → Bool
  | .bool false => false
  | .nil => false
  | _ => true

/-- The binding loop of `apply` (lines 521-523): parameters beyond the
argument list are assigned `undefined`, which symbol lookup treats exactly
like an absent binding, so no entry is recorded for them here. -/
def bindParams (acc : List (String × Value)) :
    List String → List Value → List (String × Value)
  | [], _ => acc
  | _ :: _, [] => acc
  | p :: ps, v :: vs => bindParams (setA acc p v) ps vs

mutual

/-- `Evaluator.eval` (lines 424-496).  Note the `List` case: the head
expression is **evaluated first**; a function value is applied, a string
value is dispatched as a special-form / macro name (the dead
`first === 'Symbol'` comparison at line 451 is subsumed by the string
check at line 455), anything else throws. -/
def eval : Nat → Store → Mtab → Nat → Expr → Res Value × Store × Mtab
  | 0, st, mc, _, _ => (.out, st, mc)
  | fuel + 1, st, mc, envId, e =>
    match e with
    | .lit l => (.ok (litVal l), st, mc)
    | .sym s =>
        match st.envs[envId]? with
        | none => (.err undefinedAccess, st, mc)
        | some env =>
            match lookupA env.bindings s with
            | some v => (.ok v, st, mc)
            | none =>
                match env.parent with
                | some p => (lookupInParent fuel st p s, st, mc)
                | none => (.err ("Undefined symbol: " ++ s), st, mc)
    | .list es =>
        match es with
        | [] => (.ok (.listV []), st, mc)
        | h :: rest =>
            match eval fuel st mc envId h with
            | (.ok first, st1, m1) =>
                match first with
                | .fnV ps body fnEnv => apply fuel st1 m1 envId ps body fnEnv rest
                | .str s => specialForm fuel st1 m1 envId s rest
                | _ => (.err "Cannot call non-function", st1, m1)
            | (.err msg, st1, m1) => (.err msg, st1, m1)
            | (.out, st1, m1) => (.out, st1, m1)
    | .vector es =>
        match evalArgs fuel st mc envId es with
        | (.ok vs, st1, m1) => (.ok (.vecV vs), st1, m1)
        | (.err msg, st1, m1) => (.err msg, st1, m1)
        | (.out, st1, m1) => (.out, st1, m1)
    | .map pairs => evalMapPairs fuel st mc envId pairs []
    | .quote q => evalQuote fuel st mc envId q
    | .quasiquote q => evalQuasiquote fuel st mc envId q
    | .unquote _ => (.err "Unquote outside quasiquote", st, mc)
    | .splice _ => (.err "Splice outside quasiquote", st, mc)
termination_by structural fuel _ _ _ _ => fuel


/-- `Evaluator.lookupInParent` (lines 498-507): walk the parent chain. -/
def lookupInParent : Nat → Store → Nat → String → Res Value
  | 0, _, _, _ => .out
  | fuel + 1, st, envId, name =>
      match st.envs[envId]? with
      | none => .err undefinedAccess
      | some env =>
          match lookupA env.bindings name with
          | some v => .ok v
          | none =>
              match env.parent with
              | some p => lookupInParent fuel st p name
              | none => .err ("Undefined symbol: " ++ name)
termination_by structural fuel _ _ _ => fuel


/-- `args.map(a => this.eval(a))` — argument evaluation in the caller's
evaluator (line 510), left to right. -/
def evalArgs : Nat → Store → Mtab → Nat → List Expr → Res (List Value) × Store × Mtab
  | 0, st, mc, _, _ => (.out, st, mc)
  | _ + 1, st, mc, _, [] => (.ok [], st, mc)
  | fuel + 1, st, mc, envId, e :: rest =>
      match eval fuel st mc envId e with
      | (.ok v, st1, m1) =>
          match evalArgs fuel st1 m1 envId rest with
          | (.ok vs, st2, m2) => (.ok (v :: vs), st2, m2)
          | (.err msg, st2, m2) => (.err msg, st2, m2)
          | (.out, st2, m2) => (.out, st2, m2)
      | (.err msg, st1, m1) => (.err msg, st1, m1)
      | (.out, st1, m1) => (.out, st1, m1)
termination_by structural fuel _ _ _ _ => fuel

/-- The `for (const expr of body) result = eval(expr)` loop (lines 526-531,
583-586, 600-605), threading the executing evaluator's macro table;
`acc` is the `result` variable, initially `null`. -/
def evalSeq : Nat → Store → Mtab → Nat → List Expr → Value → Res Value × Store × Mtab
  | 0, st, mc, _, _, _ => (.out, st, mc)
  | _ + 1, st, mc, _, [], acc => (.ok acc, st, mc)
  | fuel + 1, st, mc, envId, e :: rest, _ =>
      match eval fuel st mc envId e with
      | (.ok v, st1, m1) => evalSeq fuel st1 m1 envId rest v
      | (.err msg, st1, m1) => (.err msg, st1, m1)
      | (.out, st1, m1) => (.out, st1, m1)
termination_by structural fuel _ _ _ _ _ => fuel

/-- `Evaluator.apply` (lines 509-533): evaluate the arguments in the
caller's evaluator; an empty body returns a fresh closure at once (this is
what every primitive hits); otherwise bind the parameters positionally in
a fresh child of the closure's environment (missing arguments bind
`undefined`, which lookups treat as absent) and run the body in a **new
nested `Evaluator`** whose macro table starts empty and is discarded. -/
def apply : Nat → Store → Mtab → Nat → List String → List Expr → Option Nat →
    List Expr → Res Value × Store × Mtab
  | 0, st, mc, _, _, _, _, _ => (.out, st, mc)
  | fuel + 1, st, mc, envId, params, body, fnEnv, args =>
      match evalArgs fuel st mc envId args with
      | (.ok vs, st1, m1) =>
          match body with
          | [] => (.ok (.fnV params [] fnEnv), st1, m1)
          | _ =>
              let newId := st1.envs.length
              let st2 : Store := ⟨st1.envs ++ [⟨fnEnv, bindParams [] params vs⟩]⟩
              match evalSeq fuel st2 [] newId body .nil with
              | (res, st3, _) => (res, st3, m1)
      | (.err msg, st1, m1) => (.err msg, st1, m1)
      | (.out, st1, m1) => (.out, st1, m1)
termination_by structural fuel _ _ _ _ _ _ _ => fuel

/-- The `let` binding loop (lines 577-581): each binding expression is
evaluated by **`this.eval`, i.e. in the environment surrounding the
`let`** (`outerId`), and the result is written into the new environment
(`newId`).  An odd-length binding vector makes the source evaluate
`bindings[i+1] === undefined` and throw. -/
def letLoop : Nat → Store → Mtab → Nat → Nat → List Expr → Res Unit × Store × Mtab
  | 0, st, mc, _, _, _ => (.out, st, mc)
  | _ + 1, st, mc, _, _, [] => (.ok (), st, mc)
  | _ + 1, st, mc, _, _, [_] => (.err undefinedAccess, st, mc)
  | fuel + 1, st, mc, outerId, newId, bx :: be :: rest =>
      match eval fuel st mc outerId be with
      | (.ok v, st1, m1) => letLoop fuel (storeSetB st1 newId (jsKey bx) v) m1 outerId newId rest
      | (.err msg, st1, m1) => (.err msg, st1, m1)
      | (.out, st1, m1) => (.out, st1, m1)
termination_by structural fuel _ _ _ _ _ => fuel

/-- `Evaluator.specialForm` (lines 535-617), reached only when the list
head **evaluated** to a string.  The switch is rendered as an if-chain in
source case order; the default case consults the macro table and otherwise
throws `Unknown special form`. -/
def specialForm : Nat → Store → Mtab → Nat → String → List Expr → Res Value × Store × Mtab
  | 0, st, mc, _, _, _ => (.out, st, mc)
  | fuel + 1, st, mc, envId, name, args =>
    if name = "fn" then
      match paramsOfExpr args[0]? with
      | .ok params => (.ok (.fnV params (args.drop 1) (some envId)), st, mc)
      | .error msg => (.err msg, st, mc)
    else if name = "def" then
      match args[1]? with
      | none => (.err undefinedAccess, st, mc)
      | some a1 =>
          match eval fuel st mc envId a1 with
          | (.ok v, st1, m1) =>
              match args[0]? with
              | some a0 => (.ok .nil, storeSetB st1 envId (jsKey a0) v, m1)
              | none => (.err undefinedAccess, st1, m1)
          | (.err msg, st1, m1) => (.err msg, st1, m1)
          | (.out, st1, m1) => (.out, st1, m1)
    else if name = "defn" then
      match args[0]? with
      | none => (.err undefinedAccess, st, mc)
      | some a0 =>
          match paramsOfExpr args[1]? with
          | .ok params =>
              (.ok .nil,
               storeSetB st envId (jsKey a0) (.fnV params (args.drop 2) (some envId)), mc)
          | .error msg => (.err msg, st, mc)
    else if name = "defmacro" then
      match args[0]? with
      | none => (.err undefinedAccess, st, mc)
      | some a0 =>
          match paramsOfExpr args[1]? with
          | .ok params => (.ok .nil, st, setA mc (jsKey a0) (params, args.drop 2))
          | .error msg => (.err msg, st, mc)
    else if name = "let" then
      match args[0]? with
      | none => (.err undefinedAccess, st, mc)
      | some a0 =>
          match elemsOf a0 with
          | none => (.err undefinedAccess, st, mc)
          | some bs =>
              let newId := st.envs.length
              let st1 : Store := ⟨st.envs ++ [⟨some envId, []⟩]⟩
              match letLoop fuel st1 mc envId newId bs with
              | (.ok _, st2, m2) =>
                  match evalSeq fuel st2 [] newId (args.drop 1) .nil with
                  | (res, st3, _) => (res, st3, m2)
              | (.err msg, st2, m2) => (.err msg, st2, m2)
              | (.out, st2, m2) => (.out, st2, m2)
    else if name = "if" then
      match args[0]? with
      | none => (.err undefinedAccess, st, mc)
      | some c =>
          match eval fuel st mc envId c with
          | (.ok v, st1, m1) =>
              if jsTruthyIf v then
                match args[1]? with
                | none => (.err undefinedAccess, st1, m1)
                | some t => eval fuel st1 m1 envId t
              else
                match args[2]? with
                | some e2 => eval fuel st1 m1 envId e2
                | none => (.ok .nil, st1, m1)
          | (.err msg, st1, m1) => (.err msg, st1, m1)
          | (.out, st1, m1) => (.out, st1, m1)
    else if name = "do" then
      evalSeq fuel st mc envId args .nil
    else
      match lookupA mc name with
      | some pb =>
          match expandMacro name pb.1 pb.2 args with
          | .ok expanded => eval fuel st mc envId expanded
          | .error msg => (.err msg, st, mc)
      | none => (.err ("Unknown special form: " ++ name), st, mc)
termination_by structural fuel _ _ _ _ _ => fuel

/-- `Evaluator.evalQuote` (lines 671-693): symbols become strings, lists
and vectors are quoted element-wise, a quoted map loses its entries, and
every other variant falls back to **`this.eval`**. -/
def evalQuote : Nat → Store → Mtab → Nat → Expr → Res Value × Store × Mtab
  | 0, st, mc, _, _ => (.out, st, mc)
  | fuel + 1, st, mc, envId, e =>
    match e with
    | .sym s => (.ok (.str s), st, mc)
    | .list es =>
        match evalQuoteList fuel st mc envId es with
        | (.ok vs, st1, m1) => (.ok (.listV vs), st1, m1)
        | (.err msg, st1, m1) => (.err msg, st1, m1)
        | (.out, st1, m1) => (.out, st1, m1)
    | .vector es =>
        match evalQuoteList fuel st mc envId es with
        | (.ok vs, st1, m1) => (.ok (.vecV vs), st1, m1)
        | (.err msg, st1, m1) => (.err msg, st1, m1)
        | (.out, st1, m1) => (.out, st1, m1)
    | .map _ => (.ok (.mapV []), st, mc)
    | e => eval fuel st mc envId e
termination_by structural fuel _ _ _ _ => fuel

def evalQuoteList : Nat → Store → Mtab → Nat → List Expr → Res (List Value) × Store × Mtab
  | 0, st, mc, _, _ => (.out, st, mc)
  | _ + 1, st, mc, _, [] => (.ok [], st, mc)
  | fuel + 1, st, mc, envId, e :: rest =>
      match evalQuote fuel st mc envId e with
      | (.ok v, st1, m1) =>
          match evalQuoteList fuel st1 m1 envId rest with
          | (.ok vs, st2, m2) => (.ok (v :: vs), st2, m2)
          | (.err msg, st2, m2) => (.err msg, st2, m2)
          | (.out, st2, m2) => (.out, st2, m2)
      | (.err msg, st1, m1) => (.err msg, st1, m1)
      | (.out, st1, m1) => (.out, st1, m1)
termination_by structural fuel _ _ _ _ => fuel

/-- `Evaluator.evalQuasiquote` (lines 695-722).  An `Unquote` is evaluated;
a `Splice` is evaluated and wrapped in the internal splice marker — its
value's elements when it is a **list**, the whole value as a single element
otherwise (vectors included; no error is raised); a `List` flattens any
marker produced by its elements; everything else (vectors and maps
included) falls back to `evalQuote`. -/
def evalQuasiquote : Nat → Store → Mtab → Nat → Expr → Res Value × Store × Mtab
  | 0, st, mc, _, _ => (.out, st, mc)
  | fuel + 1, st, mc, envId, e =>
    match e with
    | .unquote inner => eval fuel st mc envId inner
    | .splice inner =>
        match eval fuel st mc envId inner with
        | (.ok v, st1, m1) =>
            match v with
            | .listV vs => (.ok (.spliceV vs), st1, m1)
            | v => (.ok (.spliceV [v]), st1, m1)
        | (.err msg, st1, m1) => (.err msg, st1, m1)
        | (.out, st1, m1) => (.out, st1, m1)
    | .list es => qqList fuel st mc envId es []
    | e => evalQuote fuel st mc envId e
termination_by structural fuel _ _ _ _ => fuel

/-- The flattening loop of `evalQuasiquote`'s `List` case (lines 707-717). -/
def qqList : Nat → Store → Mtab → Nat → List Expr → List Value → Res Value × Store × Mtab
  | 0, st, mc, _, _, _ => (.out, st, mc)
  | _ + 1, st, mc, _, [], acc => (.ok (.listV acc), st, mc)
  | fuel + 1, st, mc, envId, e :: rest, acc =>
      match evalQuasiquote fuel st mc envId e with
      | (.ok r, st1, m1) =>
          match r with
          | .spliceV vs => qqList fuel st1 m1 envId rest (acc ++ vs)
          | v => qqList fuel st1 m1 envId rest (acc ++ [v])
      | (.err msg, st1, m1) => (.err msg, st1, m1)
      | (.out, st1, m1) => (.out, st1, m1)
termination_by structural fuel _ _ _ _ _ => fuel

/-- `Evaluator.evalMap` — the `Map` case of `eval` (lines 469-479): each key
must evaluate to a string, each value is evaluated, and the entries object
is built up in order. -/
def evalMapPairs : Nat → Store → Mtab → Nat → List (Expr × Expr) →
    List (String × Value) → Res Value × Store × Mtab
  | 0, st, mc, _, _, _ => (.out, st, mc)
  | _ + 1, st, mc, _, [], acc => (.ok (.mapV acc), st, mc)
  | fuel + 1, st, mc, envId, (k, v) :: rest, acc =>
      match eval fuel st mc envId k with
      | (.ok kv, st1, m1) =>
          match kv with
          | .str ks =>
              match eval fuel st1 m1 envId v with
              | (.ok vv, st2, m2) => evalMapPairs fuel st2 m2 envId rest (setA acc ks vv)
              | (.err msg, st2, m2) => (.err msg, st2, m2)
              | (.out, st2, m2) => (.out, st2, m2)
          | _ => (.err "Map keys must be strings", st1, m1)
      | (.err msg, st1, m1) => (.err msg, st1, m1)
      | (.out, st1, m1) => (.out, st1, m1)
termination_by structural fuel _ _ _ _ _ => fuel

end

/-- Evaluation of a single expression on a freshly constructed evaluator
(`new Evaluator()` then `evaluator.eval(expr)`, as the host driver does per
top-level expression). -/
def evalTop (fuel : Nat) (e : Expr) : Res Value × Store × Mtab :=
  eval fuel initStore [] 0 e

/-- A sequence of top-level expressions run on one fresh evaluator
(`Evaluator.evalProgram` / the host driver's loop), returning the last
result. -/
def runProgram (fuel : Nat) (es : List Expr) : Res Value × Store × Mtab :=
  evalSeq fuel initStore [] 0 es .nil

/-- Sugar for the only route by which a reserved special form can actually
be dispatched: a quoted symbol head evaluates to the form's name string. -/
def qsym (s : String) : Expr := .quote (.sym s)

/-- The program `(def x 10)` followed by `(let [x 1 y x] y)` (with the
special-form heads written in their dispatchable quoted form). -/
def c4prog : List Expr :=
  [ .list [qsym "def", .sym "x", .lit (.num 10)],
    .list [qsym "let", .vector [.sym "x", .lit (.num 1), .sym "y", .sym "x"], .sym "y"] ]

/-- `(defn f z ('def y 2))` then `(f 1)`: a `def` evaluated inside a
function body. -/
def c5prog : List Expr :=
  [ .list [qsym "defn", .sym "f", .sym "z", .list [qsym "def", .sym "y", .lit (.num 2)]],
    .list [.sym "f", .lit (.num 1)] ]

/-- Top-level `(defmacro mymac p 7)` — a macro whose expansion is the
literal `7`. -/
def defMymac : Expr := .list [qsym "defmacro", .sym "mymac", .sym "p", .lit (.num 7)]

/-! ## Claims -/

/-- C1: the claim says a list whose head is a special-form symbol such as
`def`, `fn`, `let`, `if` or `do` is dispatched as a special form before and
without an environment lookup of that name.  In the code the `List` case of
`eval` evaluates the head first, and none of these names is bound in any
environment, so each of these forms — evaluated on a fresh evaluator —
throws `Undefined symbol` at the head lookup instead of being dispatched. -/
theorem c1_special_form_head_is_looked_up_and_throws :
    evalTop 10 (.list [.sym "def", .sym "x", .lit (.num 1)])
      = (.err "Undefined symbol: def", initStore, []) ∧
    evalTop 10 (.list [.sym "fn", .vector [.sym "x"], .sym "x"])
      = (.err "Undefined symbol: fn", initStore, []) ∧
    evalTop 10 (.list [.sym "let", .vector [.sym "x", .lit (.num 1)], .sym "x"])
      = (.err "Undefined symbol: let", initStore, []) ∧
    evalTop 10 (.list [.sym "if", .lit (.bool true), .lit (.num 1), .lit (.num 2)])
      = (.err "Undefined symbol: if", initStore, []) ∧
    evalTop 10 (.list [.sym "do", .lit (.num 1)])
      = (.err "Undefined symbol: do", initStore, []) :=
  ⟨rfl, rfl, rfl, rfl, rfl⟩

/-- C2: the claim says `(print (+ 1 2 3))` emits `6` through the print sink
and returns nil.  In the code `primitiveFn` discards every callback, so
both `+` and `print` are inert closures: the program emits nothing, invokes
no callback, and evaluates to a function value rather than nil.  The
discarded `print` callback itself — `printCb` — would indeed have written
the single line `"6"` and returned nil had it been kept. -/
theorem c2_print_emits_nothing_and_returns_a_closure :
    evalTop 20 (.list [.sym "print",
        .list [.sym "+", .lit (.num 1), .lit (.num 2), .lit (.num 3)]])
      = (.ok (.fnV [] [] none), initStore, []) ∧
    printCb [.num 6] = .ok (.nil, ["6"]) :=
  ⟨rfl, rfl⟩

/-- C3: the claim says the expander renames the identifiers the macro body
introduces (those not among the arguments and not built-ins) and leaves
argument-position identifiers alone.  The code does the opposite: for a
macro with parameter `x` and body `(y x)` called with argument `a`, the
**parameter occurrence** `x` is renamed to `x__gen1` while the
body-introduced `y` is left untouched and the caller's `a` is never
substituted (its map is built and discarded).  A realistic quasiquote
macro body is not traversed at all: `substitute` returns every
non-symbol, non-list variant unchanged. -/
theorem c3_expander_renames_parameters_not_body_identifiers :
    expandMacro "M" ["x"] [.list [.sym "y", .sym "x"]] [.sym "a"]
      = .ok (.list [.sym "y", .sym "x__gen1"]) ∧
    hygienicEnv ["x"] = [("x", "x__gen1")] ∧
    substitute (.quasiquote (.list [.sym "if", .unquote (.sym "x"), .sym "y"]))
        (hygienicEnv ["x"])
      = .ok (.quasiquote (.list [.sym "if", .unquote (.sym "x"), .sym "y"])) :=
  ⟨rfl, rfl, rfl⟩

/-- C6 counterexample: the claim says a splice whose value is not a list or
vector raises a MacroError.  Splicing the number `7` raises nothing: the
quasiquote evaluates successfully to the one-element list `(7)`.  Splicing
a vector, which the claim says is flattened, inserts the vector whole as a
single element instead. -/
theorem c6_counterexample_non_sequence_splice_does_not_error :
    evalTop 10 (.quasiquote (.list [.splice (.lit (.num 7))]))
      = (.ok (.listV [.num 7]), initStore, []) ∧
    evalTop 20 (.quasiquote (.list [.splice (.quote (.vector [.lit (.num 1), .lit (.num 2)]))]))
      = (.ok (.listV [.vecV [.num 1, .num 2]]), initStore, []) :=
  ⟨rfl, rfl⟩

/-- C6 amended: inside a quasiquoted list, a splice whose target evaluates
to a list is flattened one level; a splice of **any** other value — a
vector included — inserts that value as a single element; no error is ever
raised for a non-sequence target. -/
theorem c6_splice_flattens_lists_only (a b c d e : Rat) :
    evalTop 20 (.quasiquote (.list
      [ .lit (.num a),
        .splice (.quote (.list [.lit (.num b), .lit (.num c)])),
        .splice (.quote (.vector [.lit (.num d)])),
        .splice (.lit (.num e)) ]))
      = (.ok (.listV [.num a, .num b, .num c, .vecV [.num d], .num e]), initStore, []) :=
  rfl

/-- C6 amended, witness. -/
theorem c6_splice_flattens_lists_only_witness :
    evalTop 20 (.quasiquote (.list
      [ .lit (.num 1),
        .splice (.quote (.list [.lit (.num 2), .lit (.num 3)])),
        .splice (.quote (.vector [.lit (.num 4)])),
        .splice (.lit (.num 5)) ]))
      = (.ok (.listV [.num 1, .num 2, .num 3, .vecV [.num 4], .num 5]), initStore, []) :=
  c6_splice_flattens_lists_only 1 2 3 4 5

/-- C7 counterexample: the claim says the internal splice marker never
escapes a quasiquote and `type-of` never returns `"unknown"` on a
reachable value.  Evaluating a quasiquote whose body is itself a splice
form returns the splice marker directly through the evaluator's public
interface, and the `type-of` callback answers `"unknown"` on it. -/
theorem c7_counterexample_splice_marker_escapes :
    evalTop 10 (.quasiquote (.splice (.lit (.num 5))))
      = (.ok (.spliceV [.num 5]), initStore, []) ∧
    typeOfStr (some (.spliceV [.num 5])) = "unknown" :=
  ⟨rfl, rfl⟩

/-- C7 amended: the internal splice marker escapes a quasiquote and then
propagates like any other value.  A quasiquote whose body is directly a
splice form evaluates to the raw marker; a marker bound by `def` is
returned again by a later plain symbol lookup; and a quasiquoted list one
of whose spliced targets itself evaluates to a marker evaluates to a list
containing the raw marker.  On a marker value the `type-of` callback
answers `"unknown"` and the formatter falls through to JavaScript's
`[object Object]`. -/
theorem c7_splice_marker_escapes_and_propagates (q : Rat) :
    (evalTop 10 (.quasiquote (.splice (.lit (.num q))))).1
      = .ok (.spliceV [.num q]) ∧
    (runProgram 30
      [ .list [qsym "def", .sym "s", .quasiquote (.splice (.lit (.num q)))],
        .sym "s" ]).1
      = .ok (.spliceV [.num q]) ∧
    (evalTop 20 (.quasiquote (.list
        [.splice (.quasiquote (.splice (.lit (.num q))))]))).1
      = .ok (.listV [.spliceV [.num q]]) ∧
    typeOfStr (some (.spliceV [.num q])) = "unknown" ∧
    formatValue (.spliceV [.num q]) = "[object Object]" := by
  refine ⟨?_, ?_, ?_, ?_, ?_⟩ <;> with_unfolding_all rfl

/-- C7 amended, witness. -/
theorem c7_splice_marker_escapes_and_propagates_witness :
    (evalTop 10 (.quasiquote (.splice (.lit (.num 9))))).1
      = .ok (.spliceV [.num 9]) ∧
    (runProgram 30
      [ .list [qsym "def", .sym "s", .quasiquote (.splice (.lit (.num 9)))],
        .sym "s" ]).1
      = .ok (.spliceV [.num 9]) ∧
    (evalTop 20 (.quasiquote (.list
        [.splice (.quasiquote (.splice (.lit (.num 9))))]))).1
      = .ok (.listV [.spliceV [.num 9]]) ∧
    typeOfStr (some (.spliceV [.num 9])) = "unknown" ∧
    formatValue (.spliceV [.num 9]) = "[object Object]" :=
  c7_splice_marker_escapes_and_propagates 9

/-- C8: the claim states the variadic identities `(+) = 0`, `(*) = 1`,
`(- x) = -x`, `(/ x) = 1/x`.  In the wired interpreter every arithmetic
primitive is an inert closure (`primitiveFn` drops the callbacks), so
`(+)` and `(- 5)` evaluate to fresh closures rather than numbers.  Even
the discarded callbacks disagree with the claim: `Array.reduce` without an
initial value returns a one-element array's element *without invoking the
reducer*, so the `-` and `/` callbacks map `[5]` to `5`, not to `-5` or
`1/5`; only the `+`/`*` empty-argument identities hold at the callback
level. -/
theorem c8_arithmetic_primitives_inert_and_unary_identities_fail :
    evalTop 10 (.list [.sym "+"]) = (.ok (.fnV [] [] none), initStore, []) ∧
    evalTop 10 (.list [.sym "-", .lit (.num 5)]) = (.ok (.fnV [] [] none), initStore, []) ∧
    minusCb [.num 5] = .ok (.num 5, []) ∧
    divCb [.num 5] = .ok (.num 5, []) ∧
    plusCb [] = .ok (.num 0, []) ∧
    timesCb [] = .ok (.num 1, []) :=
  ⟨rfl, rfl, rfl, rfl, rfl, rfl⟩

/-- C9: the claim says `=` implements recursive structural equality.  In
the wired interpreter `=` is an inert closure (`primitiveFn` drops its
callback), so `(= 1 1)` evaluates to a function value — not `true`.  The
discarded callback compares with JavaScript `===`, which is content
equality on scalars only (on collections it is reference identity, not
the claimed structural recursion). -/
theorem c9_equality_primitive_is_inert :
    evalTop 10 (.list [.sym "=", .lit (.num 1), .lit (.num 1)])
      = (.ok (.fnV [] [] none), initStore, []) ∧
    eqCb [.num 1, .num 1] = .ok (.bool true, []) ∧
    eqCb [.str "a", .str "a"] = .ok (.bool true, []) :=
  ⟨rfl, rfl, rfl⟩

/-- C4 counterexample: the claim says each `let` binding expression sees
the previous bindings, so with `x` bound to `10` outside, `(let [x 1 y x]
y)` would bind `y` to the new `x = 1` and return `1`.  The code evaluates
every binding expression in the environment *surrounding* the `let`, so
`y` is bound to the outer `10` and the form returns `10`. -/
theorem c4_counterexample_let_bindings_are_not_sequential :
    (runProgram 30 c4prog).1 = .ok (.num 10) ∧
    (runProgram 30 c4prog).1 ≠ .ok (.num 1) := by
  refine ⟨rfl, fun h => ?_⟩
  have h2 : (Res.ok (Value.num 10) : Res Value) = .ok (.num 1) := h
  have h3 : Value.num 10 = Value.num 1 := by injection h2
  have h4 : (10 : Rat) = 1 := by injection h3
  norm_num at h4

/-- C4 amended: in `(let [p1 e1 p2 e2 …] body…)` every binding expression
`ei` is evaluated in the environment surrounding the `let`, so it sees
none of `p1 … p(i-1)`; the body is evaluated in the new environment
extending the current one (its bindings shadow outer ones), and the result
is the value of the last body expression — `nil` when the body is empty. -/
theorem c4_let_binding_exprs_see_outer_env (q1 q2 : Rat) :
    (runProgram 30
      [ .list [qsym "def", .sym "x", .lit (.num q1)],
        .list [qsym "let", .vector [.sym "x", .lit (.num q2), .sym "y", .sym "x"], .sym "y"] ]).1
      = .ok (.num q1) ∧
    (runProgram 30
      [ .list [qsym "def", .sym "x", .lit (.num q1)],
        .list [qsym "let", .vector [.sym "x", .lit (.num q2)], .sym "x"] ]).1
      = .ok (.num q2) ∧
    (evalTop 20 (.list [qsym "let", .vector [.sym "x", .lit (.num q1)]])).1 = .ok .nil :=
  ⟨rfl, rfl, rfl⟩

/-- C4 amended, witness. -/
theorem c4_let_binding_exprs_see_outer_env_witness :
    (runProgram 30
      [ .list [qsym "def", .sym "x", .lit (.num 7)],
        .list [qsym "let", .vector [.sym "x", .lit (.num 8), .sym "y", .sym "x"], .sym "y"] ]).1
      = .ok (.num 7) ∧
    (runProgram 30
      [ .list [qsym "def", .sym "x", .lit (.num 7)],
        .list [qsym "let", .vector [.sym "x", .lit (.num 8)], .sym "x"] ]).1
      = .ok (.num 8) ∧
    (evalTop 20 (.list [qsym "let", .vector [.sym "x", .lit (.num 7)]])).1 = .ok .nil :=
  c4_let_binding_exprs_see_outer_env 7 8

/-- C5 counterexample: the claim says a `def` evaluated inside a function
body installs its binding in the root environment.  Running `c5prog`
leaves the root environment (index 0) without any binding for `y`; the
binding lands in the call's local environment (index 1, the child created
by `apply`), alongside the parameter `z`. -/
theorem c5_counterexample_def_in_function_body_binds_locally :
    lookupA ((runProgram 40 c5prog).2.1.envs.getD 0 ⟨none, []⟩).bindings "y" = none ∧
    lookupA ((runProgram 40 c5prog).2.1.envs.getD 1 ⟨none, []⟩).bindings "y"
      = some (.num 2) ∧
    lookupA ((runProgram 40 c5prog).2.1.envs.getD 1 ⟨none, []⟩).bindings "z"
      = some (.num 1) ∧
    (runProgram 40 c5prog).1 = .ok .nil := by
  refine ⟨?_, ?_, ?_, ?_⟩ <;> with_unfolding_all rfl

/-- C5 amended: `(def sym expr)` evaluates `expr` in the current
environment, installs the binding in the **current environment of the
evaluator instance executing the form** — the root only when the form is
evaluated at top level; inside a function body, the call's local
environment — and returns nil.  `defn` binds in the same current
environment, and `defmacro` records its macro in the executing instance's
own macro table. -/
theorem c5_def_installs_in_current_env (q : Rat) :
    lookupA ((evalTop 20 (.list [qsym "def", .sym "x", .lit (.num q)])).2.1.envs.getD 0
        ⟨none, []⟩).bindings "x" = some (.num q) ∧
    (evalTop 20 (.list [qsym "def", .sym "x", .lit (.num q)])).1 = .ok .nil ∧
    lookupA ((runProgram 40
        [ .list [qsym "defn", .sym "f", .sym "z", .list [qsym "def", .sym "y", .lit (.num q)]],
          .list [.sym "f", .lit (.num 1)] ]).2.1.envs.getD 1 ⟨none, []⟩).bindings "y"
      = some (.num q) ∧
    lookupA ((runProgram 40
        [ .list [qsym "defn", .sym "f", .sym "z", .list [qsym "def", .sym "y", .lit (.num q)]],
          .list [.sym "f", .lit (.num 1)] ]).2.1.envs.getD 0 ⟨none, []⟩).bindings "y"
      = none ∧
    (evalTop 20 (.list [qsym "defmacro", .sym "m", .sym "p", .sym "b"])).2.2
      = [("m", (["p"], [.sym "b"]))] := by
  refine ⟨?_, ?_, ?_, ?_, ?_⟩ <;> with_unfolding_all rfl

/-- C5 amended, witness. -/
theorem c5_def_installs_in_current_env_witness :
    lookupA ((evalTop 20 (.list [qsym "def", .sym "x", .lit (.num 6)])).2.1.envs.getD 0
        ⟨none, []⟩).bindings "x" = some (.num 6) ∧
    (evalTop 20 (.list [qsym "def", .sym "x", .lit (.num 6)])).1 = .ok .nil ∧
    lookupA ((runProgram 40
        [ .list [qsym "defn", .sym "f", .sym "z", .list [qsym "def", .sym "y", .lit (.num 6)]],
          .list [.sym "f", .lit (.num 1)] ]).2.1.envs.getD 1 ⟨none, []⟩).bindings "y"
      = some (.num 6) ∧
    lookupA ((runProgram 40
        [ .list [qsym "defn", .sym "f", .sym "z", .list [qsym "def", .sym "y", .lit (.num 6)]],
          .list [.sym "f", .lit (.num 1)] ]).2.1.envs.getD 0 ⟨none, []⟩).bindings "y"
      = none ∧
    (evalTop 20 (.list [qsym "defmacro", .sym "m", .sym "p", .sym "b"])).2.2
      = [("m", (["p"], [.sym "b"]))] :=
  c5_def_installs_in_current_env 6

/-- C10: (a) in an evaluator whose macro table is empty — exactly the state
`apply` and `let` hand their nested evaluator — any name that is not one of
the seven reserved special forms dispatches to `Unknown special form`,
whatever the store, arguments and fuel; (b) a top-level macro *does* expand
at top level, where the defining instance's table is consulted; (c, d) the
same call placed textually inside a function body or a `let` body fails
with `Unknown special form` because the nested evaluator's table starts
empty; (e) with a plain symbol head the call fails at the head lookup with
`Undefined symbol`, macros never being in the value environment. -/
theorem c10_macros_invisible_inside_function_and_let_bodies :
    (∀ (fuel : Nat) (st : Store) (envId : Nat) (name : String) (args : List Expr),
      name ≠ "fn" → name ≠ "def" → name ≠ "defn" → name ≠ "defmacro" →
      name ≠ "let" → name ≠ "if" → name ≠ "do" →
      specialForm (fuel + 1) st [] envId name args
        = (.err ("Unknown special form: " ++ name), st, [])) ∧
    (runProgram 40 [defMymac, .list [qsym "mymac"]]).1 = .ok (.num 7) ∧
    (runProgram 60 [defMymac,
        .list [qsym "defn", .sym "f", .sym "z", .list [qsym "mymac"]],
        .list [.sym "f", .lit (.num 1)]]).1
      = .err "Unknown special form: mymac" ∧
    (runProgram 60 [defMymac,
        .list [qsym "let", .vector [], .list [qsym "mymac"]]]).1
      = .err "Unknown special form: mymac" ∧
    (runProgram 60 [defMymac,
        .list [qsym "defn", .sym "g", .sym "z", .list [.sym "mymac"]],
        .list [.sym "g", .lit (.num 1)]]).1
      = .err "Undefined symbol: mymac" := by
  refine ⟨?_, ?_, ?_, ?_, ?_⟩
  · intro fuel st envId name args h1 h2 h3 h4 h5 h6 h7
    show (if name = "fn" then _ else _) = _
    rw [if_neg h1, if_neg h2, if_neg h3, if_neg h4, if_neg h5, if_neg h6, if_neg h7]
    with_unfolding_all rfl
  all_goals with_unfolding_all rfl

/-- C10, witness for the universally quantified conjunct. -/
theorem c10_macros_invisible_witness :
    specialForm 5 initStore [] 0 "mymac" []
      = (.err "Unknown special form: mymac", initStore, []) :=
  c10_macros_invisible_inside_function_and_let_bodies.1 4 initStore 0 "mymac" []
    (by decide) (by decide) (by decide) (by decide) (by decide) (by decide) (by decide)

end Rune
